import Mathlib

set_option linter.unusedVariables false

/-!
# Verification of the readr frontend (`src/frontend/src/app/page.tsx`) and the
  spec-described chunker

The React component `Home` in `page.tsx` is embedded shallowly: its `useState`
hooks become the fields of `AppState`, and each event handler becomes a pure
state transformer.  Asynchronous `fetch` calls are embedded by parametrising
each handler over an outcome value describing what the network interaction
produced (success body, non-OK status with a parse result of the body, or a
rejected promise carrying an error message); the handler then computes the
final state exactly as the `try`/`catch`/`finally` code does.
-/

/-- A chat sender, from the `ChatMessage` interface (`sender: 'user' | 'ai'`). -/
inductive Sender where
  | user
  | ai
deriving DecidableEq, Repr

/-- A chat transcript entry, from the `ChatMessage` interface in `page.tsx`. -/
structure ChatMessage where
  sender : Sender
  text : String
deriving DecidableEq, Repr

/-- The part of a DOM `File` object the component inspects: its declared
content type (`file.type`) and its name. -/
structure FileModel where
  type : String
  name : String
deriving DecidableEq, Repr

/-- The component state of `Home`: one field per `useState` hook in
`page.tsx` (lines 23-37). -/
structure AppState where
  selectedFile : Option FileModel
  pdfId : Option String
  uploading : Bool
  error : Option String
  numPages : Option Nat
  currentPage : Nat
  chatMessages : List ChatMessage
  chatInput : String
  isSending : Bool
deriving DecidableEq, Repr

/-- The initial component state: every `useState` initialiser in
`page.tsx` (lines 23-37). -/
def initialState : AppState :=
  { selectedFile := none
    pdfId := none
    uploading := false
    error := none
    numPages := none
    currentPage := 1
    chatMessages := []
    chatInput := ""
    isSending := false }

/-- Outcome of the upload `fetch` in `handleUpload`.  `notOk status body`
carries the parse result of `response.json().catch(...)`: `body = none` means
the JSON parse failed (the `.catch` fallback fires), `body = some d` means it
parsed and `d` is the `description` field (`none` when absent).  `fetchFailed`
is a rejected `fetch` promise, `okParseFailed` an OK response whose body fails
to parse at line 85. -/
inductive UploadOutcome where
  | ok (pdf_id : String)
  | okParseFailed (msg : String)
  | notOk (status : Nat) (body : Option (Option String))
  | fetchFailed (msg : String)
deriving DecidableEq, Repr

/-- Whether an upload outcome takes the `catch` path of `handleUpload`. -/
def UploadOutcome.isFailure : UploadOutcome → Bool
  | .ok _ => false
  | .okParseFailed _ => true
  | .notOk _ _ => true
  | .fetchFailed _ => true

/-- The message of the `Error` thrown at line 82 of `page.tsx`:
`errorData.description || "Failed to upload PDF."`, where on a JSON parse
failure `errorData` is `{ description: "Upload failed with status: " + status }`.
JavaScript `||` treats the empty string and a missing field alike (falsy). -/
def uploadErrorMessage (status : Nat) (body : Option (Option String)) : String :=
  match body with
  | none => "Upload failed with status: " ++ toString status
  | some (some d) => if d = "" then "Failed to upload PDF." else d
  | some none => "Failed to upload PDF."

/-- Lines 66-68 of `page.tsx`, run before the upload `fetch` is issued:
`setUploading(true); setError(null); setPdfId(null)` — the active document
identifier is reset to `null` before the request is sent. -/
def uploadPreRequest (s : AppState) : AppState :=
  { s with uploading := true, error := none, pdfId := none }

/-- `handleUpload` (`page.tsx` lines 60-103) as a state transformer.  On an
OK response it installs the new `pdf_id`, resets the page to 1, clears
`numPages` and the chat history; on any failure it records the error message;
`finally` always clears `uploading`. -/
def handleUpload (s : AppState) (fileToUpload : FileModel) (oc : UploadOutcome) :
    AppState :=
  let s1 : AppState := uploadPreRequest s
  match oc with
  | .ok pid =>
      { s1 with
          pdfId := some pid
          selectedFile := none
          currentPage := 1
          numPages := none
          chatMessages := []
          error := none
          uploading := false }
  | .okParseFailed msg =>
      { s1 with error := some msg, uploading := false }
  | .notOk status body =>
      { s1 with error := some (uploadErrorMessage status body), uploading := false }
  | .fetchFailed msg =>
      { s1 with error := some msg, uploading := false }

/-- `handleFileChange` (`page.tsx` lines 41-53) up to the point where it hands
a file to `handleUpload`.  Returns the updated state together with the file
passed to `handleUpload` (`none` when no upload is initiated).  `handleUpload`
itself unconditionally issues the POST for any file it receives, so the second
component being `some` is exactly "an upload request is initiated". -/
def handleFileChange (s : AppState) (file : Option FileModel) :
    AppState × Option FileModel :=
  match file with
  | some f =>
      if f.type = "application/pdf" then
        ({ s with selectedFile := some f, error := none }, some f)
      else
        ({ s with selectedFile := none,
                  error := some "Please select a valid PDF file." }, none)
  | none =>
      ({ s with selectedFile := none,
                error := some "Please select a valid PDF file." }, none)

/-- `goToPrevPage` (`page.tsx` line 117):
`setCurrentPage(prev => (prev > 1 ? prev - 1 : prev))`. -/
def goToPrevPage (s : AppState) : AppState :=
  { s with currentPage := if 1 < s.currentPage then s.currentPage - 1 else s.currentPage }

/-- `goToNextPage` (`page.tsx` line 118):
`setCurrentPage(prev => (numPages && prev < numPages ? prev + 1 : prev))`;
`numPages` equal to `null` or `0` is falsy, so no move happens then. -/
def goToNextPage (s : AppState) : AppState :=
  { s with currentPage :=
      match s.numPages with
      | some n => if 0 < n ∧ s.currentPage < n then s.currentPage + 1 else s.currentPage
      | none => s.currentPage }

/-- Outcome of the chat `fetch` in `handleSendMessage`.  For a non-OK
response, `response.json()` at line 151 has no `.catch`, so a parse failure
escapes to the outer `catch` (`notOkParseFailed`); when it parses,
`notOkParsed` carries the `description` field (`none` when absent).
`ok answer` carries the `answer` field of a parsed OK body; `okParseFailed`
is an OK response whose body fails to parse at line 155. -/
inductive ChatOutcome where
  | ok (answer : String)
  | okParseFailed (msg : String)
  | notOkParsed (status : Nat) (description : Option String)
  | notOkParseFailed (msg : String)
  | fetchFailed (msg : String)
deriving DecidableEq, Repr

/-- Whether a chat outcome is an HTTP-level failure: the `fetch` promise
rejected, or the response was non-OK (either branch at lines 150-153). -/
def ChatOutcome.isHttpFailure : ChatOutcome → Bool
  | .ok _ => false
  | .okParseFailed _ => false
  | .notOkParsed _ _ => true
  | .notOkParseFailed _ => true
  | .fetchFailed _ => true

/-- The message of the `Error` thrown at line 152 of `page.tsx`:
`errorData.description || "HTTP error! status: " + response.status`
(the empty string is falsy in JavaScript). -/
def chatHttpErrorMessage (status : Nat) (description : Option String) : String :=
  match description with
  | some d => if d = "" then "HTTP error! status: " ++ toString status else d
  | none => "HTTP error! status: " ++ toString status

/-- The error message the outer `catch` of `handleSendMessage` observes for
each failing outcome (`err.message`, lines 159-160). -/
def ChatOutcome.errMessage : ChatOutcome → String
  | .ok _ => ""
  | .okParseFailed msg => msg
  | .notOkParsed status description => chatHttpErrorMessage status description
  | .notOkParseFailed msg => msg
  | .fetchFailed msg => msg

/-- The `catch` block of `handleSendMessage` (`page.tsx` lines 159-167) plus
the `finally` (line 169): appends the per-turn error message to the
transcript, records `error`, clears `isSending`. -/
def chatCatch (s : AppState) (msg : String) : AppState :=
  { s with
      chatMessages :=
        s.chatMessages ++ [⟨Sender.ai, "Sorry, I encountered an error: " ++ msg⟩]
      error := some ("Chat failed: " ++ msg)
      isSending := false }

/-- JavaScript `String.prototype.trim`: strip leading and trailing whitespace
(space, tab, carriage return, line feed), modelled over the character list. -/
def jsTrim (t : String) : String :=
  String.mk ((t.data.dropWhile Char.isWhitespace).reverse.dropWhile
    Char.isWhitespace).reverse

/-- A chat request is sent exactly when the guard at line 133 of `page.tsx`
(`if (!chatInput.trim() || !pdfId || isSending) return;`) does not fire. -/
def sendsChatRequest (s : AppState) : Prop :=
  ¬(jsTrim s.chatInput = "" ∨ s.pdfId = none ∨ s.isSending = true)

instance (s : AppState) : Decidable (sendsChatRequest s) :=
  inferInstanceAs
    (Decidable ¬(jsTrim s.chatInput = "" ∨ s.pdfId = none ∨ s.isSending = true))

/-- `handleSendMessage` (`page.tsx` lines 131-171) as a state transformer.
If the guard at line 133 fires, the state is untouched.  Otherwise the user
message is appended, the input cleared, `isSending` set and `error` cleared
(lines 135-139); then the outcome of the `fetch` decides between appending the
AI answer (lines 155-157) and the `catch` path; `finally` clears
`isSending`. -/
def handleSendMessage (s : AppState) (oc : ChatOutcome) : AppState :=
  if jsTrim s.chatInput = "" ∨ s.pdfId = none ∨ s.isSending = true then s
  else
    let userMessage : ChatMessage := ⟨Sender.user, s.chatInput⟩
    let s1 : AppState :=
      { s with
          chatMessages := s.chatMessages ++ [userMessage]
          chatInput := ""
          isSending := true
          error := none }
    match oc with
    | .ok answer =>
        { s1 with
            chatMessages := s1.chatMessages ++ [⟨Sender.ai, answer⟩]
            isSending := false }
    | .okParseFailed msg => chatCatch s1 msg
    | .notOkParsed status description =>
        chatCatch s1 (chatHttpErrorMessage status description)
    | .notOkParseFailed msg => chatCatch s1 msg
    | .fetchFailed msg => chatCatch s1 msg

/-- A page-navigation operation (clicking Previous or Next). -/
inductive NavOp where
  | prev
  | next
deriving DecidableEq, Repr

/-- Apply one navigation operation. -/
def applyNav : NavOp → AppState → AppState
  | .prev, s => goToPrevPage s
  | .next, s => goToNextPage s

/-- Apply a sequence of navigation operations, left to right. -/
def applyNavs : List NavOp → AppState → AppState
  | [], s => s
  | op :: ops, s => applyNavs ops (applyNav op s)

/-- The page-bounds invariant: the current page is at least 1 and, when the
page count is known, at most that count. -/
def pageInvariant (s : AppState) : Prop :=
  1 ≤ s.currentPage ∧ ∀ n, s.numPages = some n → s.currentPage ≤ n

/-- Modelled from the spec: the backend Chunker is not in `src/` (only the
Python requirements file survives), so its windowing is taken from §4.2: slide
a window of `chunk_size` over the concatenated text, advancing by
`chunk_size - overlap` each step; the final chunk may be shorter than
`chunk_size`.  `chunkSpansFrom s o L start` emits the character spans
`(start, end)` produced from offset `start` over text of length `L`: each
window is clamped to the text, and the slide stops once a window reaches the
end of the text (a further window would add no new offsets, and §8.1 requires
every earlier pair of consecutive chunks to overlap by exactly `o`). -/
def chunkSpansFrom (s o L start : Nat) : List (Nat × Nat) :=
  if h : o < s ∧ start + s < L then
    (start, start + s) :: chunkSpansFrom s o L (start + (s - o))
  else
    [(start, min (start + s) L)]
termination_by L - start
decreasing_by omega

/-- Modelled from the spec (§4.2): the full chunking of a text of length `L`
with `chunk_size = s` and `overlap = o`; empty input yields an empty chunk
sequence. -/
def chunkSpans (s o L : Nat) : List (Nat × Nat) :=
  if L = 0 then [] else chunkSpansFrom s o L 0

example : chunkSpans 9 3 19 = [(0, 9), (6, 15), (12, 19)] := by
  simp [chunkSpans, chunkSpansFrom]
example : chunkSpans 9 3 8 = [(0, 8)] := by
  simp [chunkSpans, chunkSpansFrom]
example : chunkSpans 9 3 0 = [] := by
  simp [chunkSpans]
example : chunkSpans 3 1 7 = [(0, 3), (2, 5), (4, 7)] := by
  simp [chunkSpans, chunkSpansFrom]

/-- The first span produced from `start` always begins at `start` and is the
window clamped to the text. -/
theorem chunkSpansFrom_head (s o L start : Nat) :
    (chunkSpansFrom s o L start).head? = some (start, min (start + s) L) := by
  unfold chunkSpansFrom
  split
  case isTrue h =>
    simp [Nat.min_eq_left (Nat.le_of_lt h.2)]
  case isFalse h =>
    rfl

/-- Consecutive spans: the window slides by exactly `s - o`, every non-final
span has full width `s`, and each span overlaps the next by exactly `o`
characters. -/
theorem chunkSpansFrom_chain (s o L start : Nat) (ho : o < s) :
    List.Chain'
      (fun p q : Nat × Nat => q.1 = p.1 + (s - o) ∧ p.2 - p.1 = s ∧ p.2 - q.1 = o)
      (chunkSpansFrom s o L start) := by
  unfold chunkSpansFrom
  split
  case isTrue h =>
    have ih := chunkSpansFrom_chain s o L (start + (s - o)) ho
    refine List.chain'_cons'.mpr ⟨?_, ih⟩
    intro q hq
    have hh := chunkSpansFrom_head s o L (start + (s - o))
    rw [hh] at hq
    simp only [Option.mem_some_iff] at hq
    subst hq
    refine ⟨rfl, by omega, by omega⟩
  case isFalse h =>
    exact List.chain'_singleton _
termination_by L - start
decreasing_by omega

/-- Every offset in `[start, L)` is covered by some produced span. -/
theorem chunkSpansFrom_cover (s o L start i : Nat) (ho : o < s)
    (hstart : start ≤ i) (hi : i < L) :
    ∃ p ∈ chunkSpansFrom s o L start, p.1 ≤ i ∧ i < p.2 := by
  unfold chunkSpansFrom
  split
  case isTrue h =>
    by_cases hc : i < start + s
    · exact ⟨(start, start + s), List.mem_cons_self _ _, hstart, hc⟩
    · obtain ⟨p, hp, hcov⟩ :=
        chunkSpansFrom_cover s o L (start + (s - o)) i ho (by omega) hi
      exact ⟨p, List.mem_cons_of_mem _ hp, hcov⟩
  case isFalse h =>
    refine ⟨(start, min (start + s) L), List.mem_singleton_self _, hstart, ?_⟩
    omega
termination_by L - start
decreasing_by omega

/-- Every produced span fits in the window: its width is at most `s`. -/
theorem chunkSpansFrom_size (s o L start : Nat) (p : Nat × Nat)
    (hp : p ∈ chunkSpansFrom s o L start) : p.2 - p.1 ≤ s := by
  unfold chunkSpansFrom at hp
  split at hp
  case isTrue h =>
    rcases List.mem_cons.mp hp with h1 | h2
    · subst h1
      omega
    · exact chunkSpansFrom_size s o L (start + (s - o)) p h2
  case isFalse h =>
    rw [List.mem_singleton] at hp
    subst hp
    simp only []
    omega
termination_by L - start
decreasing_by omega

/-- A concrete PDF file, for witnesses. -/
def pdfFile : FileModel := ⟨"application/pdf", "doc.pdf"⟩

/-- A concrete non-PDF file, for witnesses. -/
def textFile : FileModel := ⟨"text/plain", "notes.txt"⟩

/-- A concrete state with a loaded document and a typed question. -/
def chatReadyState : AppState :=
  { initialState with pdfId := some "doc1", chatInput := "What is this?" }

/-- A concrete state with a chat request already in flight. -/
def busyState : AppState := { chatReadyState with isSending := true }

/-- C2: for every file selected by the user, an upload request is initiated if
and only if the file's declared content type is `"application/pdf"`; for any
other content type no upload request is made and an error is reported. -/
theorem upload_initiated_iff_pdf_type (s : AppState) (f : FileModel) :
    ((handleFileChange s (some f)).2 ≠ none ↔ f.type = "application/pdf") ∧
    (f.type ≠ "application/pdf" →
      (handleFileChange s (some f)).2 = none ∧
      (handleFileChange s (some f)).1.error =
        some "Please select a valid PDF file.") := by
  by_cases h : f.type = "application/pdf" <;>
    simp [handleFileChange, h]

/-- Witness for C2 at a concrete non-PDF file. -/
theorem upload_initiated_iff_pdf_type_witness :
    (handleFileChange initialState (some textFile)).2 = none ∧
    (handleFileChange initialState (some textFile)).1.error =
      some "Please select a valid PDF file." :=
  (upload_initiated_iff_pdf_type initialState textFile).2 (by decide)

/-- C3: a chat request is sent only when the trimmed question is non-empty
and a document is selected; a submission with a whitespace-only question is a
no-op that leaves the whole state (and so the transcript) unchanged. -/
theorem chat_request_requires_nonempty_question :
    (∀ s : AppState, sendsChatRequest s → jsTrim s.chatInput ≠ "" ∧ s.pdfId ≠ none) ∧
    (∀ (s : AppState) (oc : ChatOutcome), jsTrim s.chatInput = "" →
      handleSendMessage s oc = s ∧ ¬ sendsChatRequest s) := by
  constructor
  · intro s h
    rw [sendsChatRequest] at h
    push_neg at h
    exact ⟨h.1, h.2.1⟩
  · intro s oc h
    refine ⟨?_, ?_⟩
    · rw [handleSendMessage, if_pos (Or.inl h)]
    · rw [sendsChatRequest]
      push_neg
      exact Or.inl h

/-- Witness for C3 at a whitespace-only question. -/
theorem chat_request_requires_nonempty_question_witness :
    handleSendMessage { chatReadyState with chatInput := "   " } (ChatOutcome.ok "hi") =
      { chatReadyState with chatInput := "   " } ∧
    ¬ sendsChatRequest { chatReadyState with chatInput := "   " } :=
  chat_request_requires_nonempty_question.2
    { chatReadyState with chatInput := "   " } (ChatOutcome.ok "hi") (by decide)

/-- C5: an upload whose HTTP response is OK installs the response's `pdf_id`
as the active document, resets the current page to 1, and clears the chat
transcript. -/
theorem upload_ok_sets_doc_resets_page_clears_chat (s : AppState) (f : FileModel)
    (pid : String) :
    (handleUpload s f (UploadOutcome.ok pid)).pdfId = some pid ∧
    (handleUpload s f (UploadOutcome.ok pid)).currentPage = 1 ∧
    (handleUpload s f (UploadOutcome.ok pid)).chatMessages = [] := by
  refine ⟨rfl, rfl, rfl⟩

/-- C8: `pdfId` is reset to `null` before the upload request is sent, and on
every failing outcome it stays `null` while the chat transcript is left
unchanged. -/
theorem upload_failure_leaves_no_document (s : AppState) (f : FileModel)
    (oc : UploadOutcome) (h : oc.isFailure = true) :
    (uploadPreRequest s).pdfId = none ∧
    (handleUpload s f oc).pdfId = none ∧
    (handleUpload s f oc).chatMessages = s.chatMessages := by
  cases oc <;> simp_all [UploadOutcome.isFailure, handleUpload, uploadPreRequest]

/-- Witness for C8: a failed re-upload after a successful one leaves no
document selected and the transcript intact. -/
theorem upload_failure_leaves_no_document_witness :
    (uploadPreRequest chatReadyState).pdfId = none ∧
    (handleUpload chatReadyState pdfFile (UploadOutcome.fetchFailed "boom")).pdfId
      = none ∧
    (handleUpload chatReadyState pdfFile (UploadOutcome.fetchFailed "boom")).chatMessages
      = chatReadyState.chatMessages :=
  upload_failure_leaves_no_document chatReadyState pdfFile
    (UploadOutcome.fetchFailed "boom") rfl

/-- C10: while a send is pending (`isSending = true`) a further submission is
a no-op that sends no request; and every run of `handleSendMessage` either
changes nothing or ends with `isSending` cleared (the `finally` block). -/
theorem single_chat_request_in_flight :
    (∀ (s : AppState) (oc : ChatOutcome), s.isSending = true →
      handleSendMessage s oc = s ∧ ¬ sendsChatRequest s) ∧
    (∀ (s : AppState) (oc : ChatOutcome),
      handleSendMessage s oc = s ∨ (handleSendMessage s oc).isSending = false) := by
  constructor
  · intro s oc h
    refine ⟨?_, ?_⟩
    · rw [handleSendMessage, if_pos (Or.inr (Or.inr h))]
    · rw [sendsChatRequest]
      push_neg
      exact Or.inr (Or.inr h)
  · intro s oc
    by_cases hg : jsTrim s.chatInput = "" ∨ s.pdfId = none ∨ s.isSending = true
    · left
      rw [handleSendMessage, if_pos hg]
    · right
      rw [handleSendMessage, if_neg hg]
      cases oc <;> simp [chatCatch]

/-- Witness for C10 at a concrete busy state. -/
theorem single_chat_request_in_flight_witness :
    handleSendMessage busyState (ChatOutcome.ok "hi") = busyState ∧
    ¬ sendsChatRequest busyState :=
  single_chat_request_in_flight.1 busyState (ChatOutcome.ok "hi") rfl

/-- C1: a chat turn whose HTTP request fails or returns a non-OK response
appends the per-turn error message to the transcript (after the user's own
message), leaves `pdfId`, `numPages` and `currentPage` unchanged, and resets
`isSending` so a further question can be submitted. -/
theorem chat_http_failure_appends_error (s : AppState) (oc : ChatOutcome)
    (hin : jsTrim s.chatInput ≠ "") (hid : s.pdfId ≠ none)
    (hsend : s.isSending = false) (hfail : oc.isHttpFailure = true) :
    (handleSendMessage s oc).chatMessages =
      s.chatMessages ++ [⟨Sender.user, s.chatInput⟩,
        ⟨Sender.ai, "Sorry, I encountered an error: " ++ oc.errMessage⟩] ∧
    (handleSendMessage s oc).pdfId = s.pdfId ∧
    (handleSendMessage s oc).numPages = s.numPages ∧
    (handleSendMessage s oc).currentPage = s.currentPage ∧
    (handleSendMessage s oc).isSending = false := by
  have hguard : ¬(jsTrim s.chatInput = "" ∨ s.pdfId = none ∨ s.isSending = true) := by
    push_neg
    exact ⟨hin, hid, by simp [hsend]⟩
  cases oc <;>
    simp_all [handleSendMessage, ChatOutcome.isHttpFailure, ChatOutcome.errMessage,
      chatCatch]

/-- Witness for C1 at a concrete failing chat turn. -/
theorem chat_http_failure_appends_error_witness :
    (handleSendMessage chatReadyState
        (ChatOutcome.notOkParsed 404 (some "PDF not found"))).chatMessages =
      chatReadyState.chatMessages ++ [⟨Sender.user, chatReadyState.chatInput⟩,
        ⟨Sender.ai, "Sorry, I encountered an error: " ++
          (ChatOutcome.notOkParsed 404 (some "PDF not found")).errMessage⟩] ∧
    (handleSendMessage chatReadyState
        (ChatOutcome.notOkParsed 404 (some "PDF not found"))).pdfId =
      chatReadyState.pdfId ∧
    (handleSendMessage chatReadyState
        (ChatOutcome.notOkParsed 404 (some "PDF not found"))).numPages =
      chatReadyState.numPages ∧
    (handleSendMessage chatReadyState
        (ChatOutcome.notOkParsed 404 (some "PDF not found"))).currentPage =
      chatReadyState.currentPage ∧
    (handleSendMessage chatReadyState
        (ChatOutcome.notOkParsed 404 (some "PDF not found"))).isSending = false :=
  chat_http_failure_appends_error chatReadyState
    (ChatOutcome.notOkParsed 404 (some "PDF not found"))
    (by decide) (by decide) rfl rfl

/-- C4: a chat turn whose HTTP response is OK appends exactly one assistant
message, whose text is the `answer` field of the response body. -/
theorem chat_ok_appends_answer (s : AppState) (answer : String)
    (hin : jsTrim s.chatInput ≠ "") (hid : s.pdfId ≠ none)
    (hsend : s.isSending = false) :
    (handleSendMessage s (ChatOutcome.ok answer)).chatMessages =
      s.chatMessages ++ [⟨Sender.user, s.chatInput⟩, ⟨Sender.ai, answer⟩] := by
  have hguard : ¬(jsTrim s.chatInput = "" ∨ s.pdfId = none ∨ s.isSending = true) := by
    push_neg
    exact ⟨hin, hid, by simp [hsend]⟩
  simp [handleSendMessage, hguard]

/-- Witness for C4 at a concrete OK chat turn. -/
theorem chat_ok_appends_answer_witness :
    (handleSendMessage chatReadyState (ChatOutcome.ok "It is a PDF.")).chatMessages =
      chatReadyState.chatMessages ++ [⟨Sender.user, chatReadyState.chatInput⟩,
        ⟨Sender.ai, "It is a PDF."⟩] :=
  chat_ok_appends_answer chatReadyState "It is a PDF." (by decide) (by decide) rfl

/-- The claim that every non-OK upload response either reports the body's
`description` or a fallback containing the HTTP status is false: a parseable
body without a `description` field yields the fixed message
`"Failed to upload PDF."`, which does not contain the status code `404`. -/
theorem upload_error_fallback_counterexample :
    (handleUpload initialState pdfFile (UploadOutcome.notOk 404 (some none))).error =
      some "Failed to upload PDF." ∧
    ¬ ((toString (404 : Nat)).toList <:+: "Failed to upload PDF.".toList) :=
  ⟨rfl, by decide⟩

/-- C6 (amended): on a non-OK upload response the reported message is the
body's `description` when the body parses and the field is present and
non-empty; when the body fails to parse, the fallback contains the HTTP
status; when the body parses but the `description` is absent (or empty), the
fallback is the fixed message `"Failed to upload PDF."`. -/
theorem upload_error_message_cases (s : AppState) (f : FileModel) (status : Nat)
    (body : Option (Option String)) :
    (handleUpload s f (UploadOutcome.notOk status body)).error =
      some (uploadErrorMessage status body) ∧
    uploadErrorMessage status none = "Upload failed with status: " ++ toString status ∧
    (∀ d : String, d ≠ "" → uploadErrorMessage status (some (some d)) = d) ∧
    uploadErrorMessage status (some none) = "Failed to upload PDF." ∧
    uploadErrorMessage status (some (some "")) = "Failed to upload PDF." := by
  refine ⟨rfl, rfl, ?_, rfl, rfl⟩
  intro d hd
  simp [uploadErrorMessage, hd]

/-- Witness for C6 (amended) at a concrete description. -/
theorem upload_error_message_cases_witness :
    uploadErrorMessage 502 (some (some "backend unavailable")) = "backend unavailable" :=
  (upload_error_message_cases initialState pdfFile 502
    (some (some "backend unavailable"))).2.2.1 "backend unavailable" (by decide)

/-- One navigation step preserves the page-bounds invariant. -/
theorem applyNav_preserves_pageInvariant (op : NavOp) (s : AppState)
    (h : pageInvariant s) : pageInvariant (applyNav op s) := by
  obtain ⟨h1, h2⟩ := h
  cases op
  case prev =>
    refine ⟨?_, ?_⟩
    · simp only [applyNav, goToPrevPage]
      split <;> omega
    · intro n hn
      simp only [applyNav, goToPrevPage] at hn ⊢
      have := h2 n hn
      split <;> omega
  case next =>
    refine ⟨?_, ?_⟩
    · simp only [applyNav, goToNextPage]
      cases hn : s.numPages with
      | none => exact h1
      | some m =>
          show 1 ≤
            if 0 < m ∧ s.currentPage < m then s.currentPage + 1 else s.currentPage
          split <;> omega
    · intro n hn
      simp only [applyNav, goToNextPage] at hn ⊢
      have hcp := h2 n hn
      simp only [hn]
      show (if 0 < n ∧ s.currentPage < n then s.currentPage + 1 else s.currentPage) ≤ n
      split <;> omega

/-- C9: the current page never leaves `[1, numPages]` under any sequence of
Previous/Next clicks: the invariant holds initially, is preserved by every
navigation sequence, and a successful upload resets the page to 1 (with the
invariant re-established). -/
theorem page_stays_in_bounds :
    pageInvariant initialState ∧
    (∀ (ops : List NavOp) (s : AppState), pageInvariant s →
      pageInvariant (applyNavs ops s)) ∧
    (∀ (s : AppState) (f : FileModel) (pid : String),
      (handleUpload s f (UploadOutcome.ok pid)).currentPage = 1 ∧
      pageInvariant (handleUpload s f (UploadOutcome.ok pid))) := by
  refine ⟨⟨Nat.le_refl 1, fun n hn => nomatch hn⟩, ?_, ?_⟩
  · intro ops
    induction ops with
    | nil => exact fun s h => h
    | cons op ops ih =>
        exact fun s h => ih _ (applyNav_preserves_pageInvariant op s h)
  · intro s f pid
    exact ⟨rfl, Nat.le_refl 1, fun n hn => nomatch hn⟩

/-- Witness for C9 at a concrete navigation sequence. -/
theorem page_stays_in_bounds_witness :
    pageInvariant
      (applyNavs [NavOp.prev, NavOp.next, NavOp.prev, NavOp.prev] initialState) :=
  page_stays_in_bounds.2.1 [NavOp.prev, NavOp.next, NavOp.prev, NavOp.prev]
    initialState ⟨Nat.le_refl 1, fun n hn => nomatch hn⟩

/-- C7: for text of length `L` chunked with `chunk_size = s`, `overlap = o`,
`0 ≤ o < s`: the window slides by `s - o` each step, every offset in `[0, L)`
is covered by some chunk span, consecutive chunks overlap by exactly `o`
characters with every non-final chunk of full width `s`, and every chunk is at
most `s` wide (the final one may be shorter). -/
theorem chunk_spans_cover_and_overlap (s o L : Nat) (ho : o < s) :
    (∀ i, i < L → ∃ p ∈ chunkSpans s o L, p.1 ≤ i ∧ i < p.2) ∧
    List.Chain'
      (fun p q : Nat × Nat => q.1 = p.1 + (s - o) ∧ p.2 - p.1 = s ∧ p.2 - q.1 = o)
      (chunkSpans s o L) ∧
    (∀ p ∈ chunkSpans s o L, p.2 - p.1 ≤ s) := by
  unfold chunkSpans
  split
  case isTrue hL =>
    subst hL
    exact ⟨fun i hi => absurd hi (Nat.not_lt_zero i), List.chain'_nil, by simp⟩
  case isFalse hL =>
    exact ⟨fun i hi => chunkSpansFrom_cover s o L 0 i ho (Nat.zero_le i) hi,
      chunkSpansFrom_chain s o L 0 ho,
      fun p hp => chunkSpansFrom_size s o L 0 p hp⟩

/-- Witness for C7 at `chunk_size = 9`, `overlap = 3`, `L = 19`. -/
theorem chunk_spans_cover_and_overlap_witness :
    ∃ p ∈ chunkSpans 9 3 19, p.1 ≤ 16 ∧ 16 < p.2 :=
  (chunk_spans_cover_and_overlap 9 3 19 (by decide)).1 16 (by decide)
